import Mathlib

/-!
Verification of the BeamState monitoring runtime against its specification.

The definitions below are a shallow embedding of the Python source:

* `backend/monitor_manager.py` — the reachability state machine and per-node
  tick (`MonitorManager.process_node`), and the DOWN-notification path
  (`MonitorManager._send_down_alert`);
* `backend/metrics_processor.py` — counter-rate derivation
  (`MetricProcessor._calculate_rate`), the metric pipeline
  (`MetricProcessor.process_metric`) and the threshold/hysteresis/cooldown
  evaluator (`MetricProcessor._check_thresholds`);
* `backend/notifications.py` — the Pushover payload construction
  (`PushoverClient.send_notification`).

Numeric values (timestamps, metric samples, thresholds) are embedded as `ℚ`;
the source's values are Python floats, and every claim under study concerns
exact comparisons at small decimal inputs where float and rational
arithmetic agree (checked by hand at each counterexample input).  Python
dictionaries are embedded as total functions with an `Option` codomain
(`dict.get` semantics: an absent key and a key stored as `None` both read
back as `none`).  Effectful calls (probe execution, file writes, the HTTP
send) are embedded as explicit inputs and outputs of the functions that
perform them.
-/

namespace BeamState

/-- Reachability status strings used by `monitor_manager.py`
("UP" / "PENDING" / "DOWN" / "PAUSED"). -/
inductive Status where
  | up
  | pending
  | down
  | paused
deriving DecidableEq

/-- Alert levels stored in `alert_states.json` ("WARNING" / "CRITICAL");
"no alert" is `Option.none` (a missing key or a key stored as JSON null). -/
inductive AlertLevel where
  | warning
  | critical
deriving DecidableEq

/-- The persisted alert-state map (`MetricProcessor.alert_states`), read with
`dict.get` semantics: node_metric_id -> current level. -/
def AlertStates : Type := String → Option AlertLevel

/-- Store a level for a binding id (`self.alert_states[id] = lvl`, or the
`pop` in the paused branch when `lvl = none`): `dict.get` semantics make the
two coincide. -/
def updateAlert (s : AlertStates) (id : String) (lvl : Option AlertLevel) :
    AlertStates :=
  fun k => if k = id then lvl else s k

/-- Per-node reachability state (`MonitorManager.node_states[node_id]`):
`{"status": ..., "failure_count": ..., "first_failure_time": ...}`. -/
structure NodeState where
  status : Status
  failure_count : ℕ
  first_failure_time : ℚ
deriving DecidableEq

/-- The slice of a `MonitorResult` that the tick logic inspects: the success
flag and the protocol tag. -/
structure ProbeResult where
  success : Bool
  protocol : String
deriving DecidableEq

/-- Line 190 of `monitor_manager.py`:
`overall_success = all(r.success for r in monitor_results) if monitor_results else False`. -/
def aggregateSuccess (rs : List ProbeResult) : Bool :=
  if rs.isEmpty then false else rs.all (fun r => r.success)

/-- `MetricProcessor.get_node_alert_status` (lines 56-85): DOWN if any
binding's persisted level is CRITICAL, else PENDING if any is WARNING,
else UP (an empty binding list returns UP). -/
def get_node_alert_status (states : AlertStates) (metricIds : List String) :
    Status :=
  if metricIds.isEmpty then .up
  else if metricIds.any (fun id =>
      match states id with
      | some .critical => true
      | _ => false) then .down
  else if metricIds.any (fun id =>
      match states id with
      | some .warning => true
      | _ => false) then .pending
  else .up

/-- Lines 203-245 of `monitor_manager.py`: the per-tick state transition.
Input: the current node state, the aggregated probe success, the node's
aggregated metric-alert status (consulted only on success), `max_retries`
and the current time.  Output: the new state and whether
`_send_down_alert` is triggered this tick (only on the PENDING→DOWN path,
line 239). -/
def processTransition (s : NodeState) (overallSuccess : Bool)
    (metricStatus : Status) (maxRetries : ℕ) (now : ℚ) : NodeState × Bool :=
  if overallSuccess then
    let newStatus :=
      if metricStatus = .down then Status.down
      else if metricStatus = .pending then Status.pending
      else Status.up
    ({ status := newStatus, failure_count := 0, first_failure_time := 0 }, false)
  else
    match s.status with
    | .up =>
        ({ status := .pending, failure_count := 1, first_failure_time := now },
         false)
    | .pending =>
        let fc := s.failure_count + 1
        if maxRetries < fc then
          ({ status := .down, failure_count := fc,
             first_failure_time := s.first_failure_time }, true)
        else
          ({ status := .pending, failure_count := fc,
             first_failure_time := s.first_failure_time }, false)
    | .down => ({ s with status := .down }, false)
    | .paused => (s, false)

/-- The node attributes `process_node` reads, with group defaults already
resolved (`node.X if node.X is not None else node.group.X`). -/
structure Node where
  enabled : Bool
  groupEnabled : Bool
  maxRetries : ℕ
  metricIds : List String

/-- Everything one call of the reachability stage of `process_node`
(lines 104-284) does, once the node is due: how many probes ran, the
status written to the `latest_results` cache, the `(protocol, status)` of
each `storage.write_monitor_result` call, the new `node_states` entry, the
alert-state file after the call, and whether a DOWN alert was triggered. -/
structure TickOutcome where
  probesRun : ℕ
  lastResultStatus : Option Status
  storageStatuses : List (String × Status)
  nodeState : NodeState
  alertStates : AlertStates
  downAlertTriggered : Bool

/-- The reachability stage of `MonitorManager.process_node` for a due node
(lines 104-284 of `monitor_manager.py`).  The probe results the configured
monitors would return are passed in (`probes`); in the disabled branch
(lines 135-163) the code returns before running any of them, so
`probesRun = 0` there.  The trailing ICMP-metric stage (lines 286-315),
which forwards samples to `MetricProcessor.process_metric`, is modelled
separately by `process_metric` below; on the disabled branch that stage is
unreachable (the early `return` at line 163), so `alertStates` is exact
there. -/
def process_node_tick (node : Node) (s : NodeState) (states : AlertStates)
    (probes : List ProbeResult) (now : ℚ) : TickOutcome :=
  if !node.enabled || !node.groupEnabled then
    { probesRun := 0
      lastResultStatus := some .paused
      storageStatuses := [("icmp", .paused)]
      nodeState := s
      alertStates := states
      downAlertTriggered := false }
  else
    let overallSuccess := aggregateSuccess probes
    let metricStatus := get_node_alert_status states node.metricIds
    let res := processTransition s overallSuccess metricStatus
        node.maxRetries now
    { probesRun := probes.length
      lastResultStatus := some res.1.status
      storageStatuses := probes.map (fun r =>
        (r.protocol,
         if res.1.status = .pending then Status.pending
         else if r.success then Status.up else Status.down))
      nodeState := res.1
      alertStates := states
      downAlertTriggered := res.2 }

/-- One entry of `MetricProcessor.previous_values`: the last raw numeric
value and its timestamp for a counter binding. -/
structure PrevSample where
  value : ℚ
  timestamp : ℚ
deriving DecidableEq

/-- The `previous_values` store: node_metric_id -> previous sample. -/
def PrevMap : Type := String → Option PrevSample

/-- `self.previous_values[node_metric_id] = {"value": cur_val, "timestamp": now}`. -/
def updatePrev (m : PrevMap) (id : String) (p : PrevSample) : PrevMap :=
  fun k => if k = id then some p else m k

/-- `MetricProcessor._calculate_rate` (lines 146-178 of
`metrics_processor.py`), restricted to numeric current values (the
`float(...)` conversions always succeed on `ℚ`).  Returns the computed rate
(or `none` on first run, non-positive time delta, or negative value delta)
together with the updated `previous_values` store, which is written
unconditionally before the rate is computed. -/
def calculate_rate (prev : PrevMap) (id : String) (cur now : ℚ)
    (unit : String) : Option ℚ × PrevMap :=
  let prevEntry := prev id
  let prev2 := updatePrev prev id ⟨cur, now⟩
  match prevEntry with
  | none => (none, prev2)
  | some p =>
      let timeDelta := now - p.timestamp
      if 0 < timeDelta then
        let valDelta := cur - p.value
        if 0 ≤ valDelta then
          let rate := valDelta / timeDelta
          (some (if unit = "bytes" then rate * 8 else rate), prev2)
        else (none, prev2)
      else (none, prev2)

/-- The inputs of `MetricProcessor._check_thresholds` that come from the
node, the binding and the global config: `node.enabled`, the
`pushover.enabled` config flag, the binding's thresholds and comparator
(`alert_condition`, defaulted to "gt"), and the node's
`notification_priority`. -/
structure AlertEnv where
  nodeEnabled : Bool
  pushoverEnabled : Bool
  warning : Option ℚ
  critical : Option ℚ
  condition : String
  nodePriority : Option ℤ

/-- `MetricProcessor.notification_cooldown` with `dict.get(id, 0)`
semantics: node_metric_id -> last notification timestamp, defaulting to 0. -/
def Cooldown : Type := String → ℚ

/-- `self.notification_cooldown[node_metric.id] = now`. -/
def updateCooldown (c : Cooldown) (id : String) (t : ℚ) : Cooldown :=
  fun k => if k = id then t else c k

/-- The mutable state `_check_thresholds` reads and writes: the persisted
alert-state map (the in-memory dict is reloaded from the file on entry and
saved right after every update, so this map is also the file's content) and
the notification-cooldown map. -/
structure AlertCtx where
  states : AlertStates
  cooldown : Cooldown

/-- One notification attempt made by `_check_thresholds`: whether it is the
RESOLVED message or a WARNING/CRITICAL alert, and the priority passed to
`send_notification`. -/
structure Notification where
  isResolve : Bool
  priority : ℤ
deriving DecidableEq

/-- Lines 215-228 of `metrics_processor.py`: the strict candidate level
before hysteresis.  CRITICAL if the critical threshold is set and crossed
(`value >= critical` for "gt", `value <= critical` for "lt"); else WARNING
by the same rule on the warning threshold; else no alert. -/
def candidateLevel (condition : String) (warning critical : Option ℚ)
    (v : ℚ) : Option AlertLevel :=
  let crit : Option AlertLevel :=
    match critical with
    | some c =>
        if (condition = "gt" ∧ c ≤ v) ∨ (condition = "lt" ∧ v ≤ c) then
          some .critical
        else none
    | none => none
  match crit with
  | some l => some l
  | none =>
      match warning with
      | some w =>
          if (condition = "gt" ∧ w ≤ v) ∨ (condition = "lt" ∧ v ≤ w) then
            some .warning
          else none
      | none => none

/-- Lines 240-257 of `metrics_processor.py`: the 5% hysteresis applied on a
downgrade attempt.  `HYSTERESIS_FACTOR = 0.05`; from CRITICAL the code
holds CRITICAL when `value > critical * (1.0 - 0.05)` for "gt" (resp.
`value < critical * (1.0 + 0.05)` for "lt"), and symmetrically holds
WARNING on a WARNING -> none attempt.  When the branch needs a threshold
that is unset (`None`), the Python multiplication raises `TypeError`,
modelled as the outer `none`. -/
def applyHysteresis (condition : String) (warning critical : Option ℚ)
    (prev cand : Option AlertLevel) (v : ℚ) : Option (Option AlertLevel) :=
  if prev = some .critical ∧ cand ≠ some .critical then
    if condition = "gt" then
      match critical with
      | none => none
      | some c =>
          some (if c * (1 - (5 : ℚ)/100) < v then some .critical else cand)
    else if condition = "lt" then
      match critical with
      | none => none
      | some c =>
          some (if v < c * (1 + (5 : ℚ)/100) then some .critical else cand)
    else some cand
  else if prev = some .warning ∧ cand = none then
    if condition = "gt" then
      match warning with
      | none => none
      | some w =>
          some (if w * (1 - (5 : ℚ)/100) < v then some .warning else cand)
    else if condition = "lt" then
      match warning with
      | none => none
      | some w =>
          some (if v < w * (1 + (5 : ℚ)/100) then some .warning else cand)
    else some cand
  else some cand

/-- `MetricProcessor._check_thresholds` (lines 180-310 of
`metrics_processor.py`) for a numeric value.  `sendOk` is the boolean the
awaited `PushoverClient.send_notification` call returns (`False` on any
dispatch failure); the code ignores it.  The result is `none` when the
Python code would raise (hysteresis against an unset threshold), otherwise
the new context and the list of notification attempts made. -/
def check_thresholds (env : AlertEnv) (id : String) (value now : ℚ)
    (sendOk : Bool) (ctx : AlertCtx) : Option (AlertCtx × List Notification) :=
  if !env.nodeEnabled then
    some ({ ctx with states := updateAlert ctx.states id none }, [])
  else if !env.pushoverEnabled then
    some (ctx, [])
  else if env.warning = none ∧ env.critical = none then
    some (ctx, [])
  else
    let cand := candidateLevel env.condition env.warning env.critical value
    let prev := ctx.states id
    match applyHysteresis env.condition env.warning env.critical prev cand
        value with
    | none => none
    | some cur =>
        if cur = prev then some (ctx, [])
        else
          let states2 := updateAlert ctx.states id cur
          match cur with
          | some lvl =>
              if now - ctx.cooldown id < 60 then
                some ({ states := states2, cooldown := ctx.cooldown }, [])
              else
                let nodePrio := env.nodePriority.getD 0
                let finalPriority :=
                  if lvl = .critical ∧ nodePrio < 1 then (1 : ℤ) else nodePrio
                some ({ states := states2,
                        cooldown := updateCooldown ctx.cooldown id now },
                      [⟨false, finalPriority⟩])
          | none =>
              match prev with
              | none =>
                  some ({ states := states2, cooldown := ctx.cooldown }, [])
              | some _ =>
                  if now - ctx.cooldown id < 60 then
                    some ({ states := states2, cooldown := ctx.cooldown }, [])
                  else
                    some ({ states := states2,
                            cooldown := updateCooldown ctx.cooldown id now },
                          [⟨true, 0⟩])

/-- The dict `process_metric` returns on success: the raw value, the derived
rate (counters only), the timestamp and the processed value used for
alerting. -/
structure Sample where
  value : ℚ
  rate : Option ℚ
  timestamp : ℚ
  processed_value : ℚ
deriving DecidableEq

/-- One `storage.write_snmp_metric` call: the persisted value and unit. -/
structure MetricWrite where
  value : ℚ
  unit : String
deriving DecidableEq

/-- Everything one call of `process_metric` does: the returned sample (or
`none` for the no-sample return), the updated `previous_values` store, the
storage write performed (if any), the alert context after the embedded
`_check_thresholds` call, and the notification attempts made. -/
structure ProcessResult where
  sample : Option Sample
  prevMap : PrevMap
  write : Option MetricWrite
  ctx : AlertCtx
  notifications : List Notification

/-- `MetricProcessor.process_metric` (lines 87-144 of
`metrics_processor.py`) for a numeric raw value.  For a counter binding the
rate is derived first; a `none` rate returns no-sample at once (line 115):
no threshold check and no storage write, but `previous_values` has already
been updated.  Otherwise thresholds are checked on the processed value and
the value is persisted, with the unit rewritten to "bps" for a counter in
"bytes" (lines 124-126).  The outer `none` is a propagated exception from
`_check_thresholds`. -/
def process_metric (env : AlertEnv) (metricType unit : String) (id : String)
    (prevMap : PrevMap) (ctx : AlertCtx) (value now : ℚ) (sendOk : Bool) :
    Option ProcessResult :=
  if metricType = "counter" then
    let rp := calculate_rate prevMap id value now unit
    match rp.1 with
    | none => some ⟨none, rp.2, none, ctx, []⟩
    | some r =>
        match check_thresholds env id r now sendOk ctx with
        | none => none
        | some (ctx2, notes) =>
            let finalUnit := if unit = "bytes" then "bps" else unit
            some ⟨some ⟨value, some r, now, r⟩, rp.2,
                  some ⟨r, finalUnit⟩, ctx2, notes⟩
  else
    match check_thresholds env id value now sendOk ctx with
    | none => none
    | some (ctx2, notes) =>
        some ⟨some ⟨value, none, now, value⟩, prevMap,
              some ⟨value, unit⟩, ctx2, notes⟩

/-- The outbound Pushover payload built by
`PushoverClient.send_notification` (lines 35-47 of `notifications.py`):
`retry` and `expire` are optional fields, added only for emergency
priority. -/
structure PushoverPayload where
  title : String
  message : String
  priority : ℤ
  retry : Option ℕ
  expire : Option ℕ
deriving DecidableEq

/-- Payload construction in `PushoverClient.send_notification`: the base
fields always, plus `retry = 60` and `expire = 3600` added exactly when
`priority == 2` (lines 44-46 of `notifications.py`). -/
def send_notification_payload (title message : String) (priority : ℤ) :
    PushoverPayload :=
  { title := title
    message := message
    priority := priority
    retry := if priority = 2 then some 60 else none
    expire := if priority = 2 then some 3600 else none }

/-- The pushover config keys `_send_down_alert` reads
(`storage.config["pushover"]`).  `hasCredentials` stands for
`token and user_key` both being set and non-empty. -/
structure PushoverConfig where
  enabled : Bool
  maintenanceMode : Bool
  throttlingEnabled : Bool
  alertThreshold : ℕ
  alertWindow : ℚ
  hasCredentials : Bool
  priority : ℤ

/-- The manager's throttling state: `MonitorManager.alert_history` (the
DOWN-alert timestamps) and `MonitorManager.last_storm_alert_time`. -/
structure ManagerAlertState where
  alertHistory : List ℚ
  lastStormAlertTime : ℚ
deriving DecidableEq

/-- A notification `_send_down_alert` sends: the aggregate storm alert or an
individual node-DOWN alert, with the priority passed to the client. -/
inductive DownNotification where
  | storm (priority : ℤ)
  | individual (priority : ℤ)
deriving DecidableEq

/-- Lines 405-424 of `monitor_manager.py`: the individual DOWN
notification.  If credentials are missing the function returns without
sending; otherwise it sends with the node's priority override or the
global default. -/
def send_individual (cfg : PushoverConfig) (nodePriority : Option ℤ)
    (st : ManagerAlertState) : ManagerAlertState × List DownNotification :=
  if !cfg.hasCredentials then (st, [])
  else (st, [.individual (nodePriority.getD cfg.priority)])

/-- `MonitorManager._send_down_alert` (lines 353-427 of
`monitor_manager.py`).  Returns the new throttling state and the
notifications sent.  Order of the source: the `enabled` check, then the
maintenance-mode check (an early return BEFORE any history bookkeeping),
then — when throttling is enabled — pruning of the history to the window,
the storm check (`len(history) >= threshold`; inside it
`last_storm_alert_time` is set before the credential check and the pruned
history is returned without appending `now`), otherwise `now` is appended
and the individual notification follows. -/
def send_down_alert (cfg : PushoverConfig) (nodePriority : Option ℤ)
    (st : ManagerAlertState) (now : ℚ) :
    ManagerAlertState × List DownNotification :=
  if !cfg.enabled then (st, [])
  else if cfg.maintenanceMode then (st, [])
  else if cfg.throttlingEnabled then
    let pruned := st.alertHistory.filter (fun t =>
      decide (now - t < cfg.alertWindow))
    if cfg.alertThreshold ≤ pruned.length then
      if cfg.alertWindow < now - st.lastStormAlertTime then
        (⟨pruned, now⟩, if cfg.hasCredentials then [.storm 1] else [])
      else (⟨pruned, st.lastStormAlertTime⟩, [])
    else
      send_individual cfg nodePriority ⟨pruned ++ [now], st.lastStormAlertTime⟩
  else send_individual cfg nodePriority st

/-! Concrete inputs used by witnesses and counterexamples. -/

/-- An alert-state map with one CRITICAL binding "m1". -/
def critStates : AlertStates := fun k => if k = "m1" then some .critical else none

/-- The empty alert-state map (no active alerts). -/
def noStates : AlertStates := fun _ => none

/-- A fresh alert context: no persisted alerts, no notification sent yet. -/
def freshCtx : AlertCtx := ⟨fun _ => none, fun _ => 0⟩

/-- An alert context whose binding "m" holds a CRITICAL alert. -/
def ctxCrit : AlertCtx :=
  ⟨fun k => if k = "m" then some .critical else none, fun _ => 0⟩

/-- An alert context with no persisted alerts whose binding "m" was last
notified at t=990. -/
def ctxRecent : AlertCtx :=
  ⟨fun _ => none, fun k => if k = "m" then 990 else 0⟩

/-- An alert context whose binding "m" holds a WARNING alert. -/
def ctxWarn : AlertCtx :=
  ⟨fun k => if k = "m" then some .warning else none, fun _ => 0⟩

/-- A binding environment: enabled node, pushover on, warn 80 / crit 90,
comparator "gt", no per-node priority. -/
def envGauge : AlertEnv := ⟨true, true, some 80, some 90, "gt", none⟩

/-- A previous-sample store holding `(1000, t=1)` for binding "m". -/
def prevM : PrevMap := fun k => if k = "m" then some ⟨1000, 1⟩ else none

/-- An enabled node, max_retries 3, no metric bindings. -/
def nodePlain : Node := ⟨true, true, 3, []⟩

/-- An enabled node, max_retries 3, one metric binding "m1". -/
def nodeWithMetric : Node := ⟨true, true, 3, ["m1"]⟩

/-- A node whose `enabled` flag is off (operator-disabled). -/
def nodeDisabled : Node := ⟨false, true, 3, ["m1"]⟩

/-- A successful ICMP probe result. -/
def pingOk : ProbeResult := ⟨true, "icmp"⟩

/-- A failed ICMP probe result. -/
def pingFail : ProbeResult := ⟨false, "icmp"⟩

/-- Pushover config with maintenance mode on (and throttling configured). -/
def cfgMaint : PushoverConfig := ⟨true, true, true, 5, 60, true, 0⟩

/-- Empty throttling state: no DOWN alerts recorded yet. -/
def st0 : ManagerAlertState := ⟨[], 0⟩

/-! ## Claims -/

/-- Claim C9: for every notification send with priority p, the outbound
payload contains retry=60 and expire=3600 exactly when p = 2, and for any
other priority neither field is present. -/
theorem C9_retry_expire_iff_emergency (title message : String) (p : ℤ) :
    ((send_notification_payload title message p).retry = some 60 ∧
        (send_notification_payload title message p).expire = some 3600 ↔
      p = 2) ∧
    ((send_notification_payload title message p).retry = none ∧
        (send_notification_payload title message p).expire = none ↔
      p ≠ 2) := by
  unfold send_notification_payload
  by_cases h : p = 2 <;> simp [h]

/-- Claim C3: for a counter binding with a stored previous sample `(v1, t1)`
and a new sample `(v2, t2)` with `t1 < t2` and `v1 ≤ v2`, the derived rate
is `(v2 - v1) / (t2 - t1)`, multiplied by 8 when the unit is "bytes"; and
in that case the storage write performed by `process_metric` carries that
rate with unit "bps". -/
theorem C3_counter_rate_formula (id : String) (v1 t1 v2 t2 : ℚ)
    (unit : String) (prevMap : PrevMap) (hprev : prevMap id = some ⟨v1, t1⟩)
    (ht : t1 < t2) (hv : v1 ≤ v2) :
    (calculate_rate prevMap id v2 t2 unit).1 =
      some (if unit = "bytes" then (v2 - v1) / (t2 - t1) * 8
            else (v2 - v1) / (t2 - t1)) ∧
    ∀ (env : AlertEnv) (ctx : AlertCtx) (sendOk : Bool) (res : ProcessResult),
      process_metric env "counter" "bytes" id prevMap ctx v2 t2 sendOk =
        some res →
      res.write = some ⟨(v2 - v1) / (t2 - t1) * 8, "bps"⟩ := by
  have h1 : (0 : ℚ) < t2 - t1 := by linarith
  have h2 : (0 : ℚ) ≤ v2 - v1 := by linarith
  have hr : ∀ u, (calculate_rate prevMap id v2 t2 u).1 =
      some (if u = "bytes" then (v2 - v1) / (t2 - t1) * 8
            else (v2 - v1) / (t2 - t1)) := by
    intro u
    simp [calculate_rate, hprev, h1, h2]
  refine ⟨hr unit, ?_⟩
  intro env ctx sendOk res hres
  unfold process_metric at hres
  rw [if_pos rfl] at hres
  rcases hrp : (calculate_rate prevMap id v2 t2 "bytes").1 with _ | r
  · rw [hr "bytes"] at hrp; cases hrp
  · have hrv : r = (v2 - v1) / (t2 - t1) * 8 := by
      have h3 := hrp.symm.trans (hr "bytes")
      simpa using h3
    simp only [hrp] at hres
    rcases hct : check_thresholds env id r t2 sendOk ctx with _ | ⟨ctx2, notes⟩
    · rw [hct] at hres; cases hres
    · rw [hct] at hres
      simp only [] at hres
      injection hres with h4
      subst h4
      simp [hrv]

/-- Claim C3 witness: samples `(1000, 1)` then `(2000, 2)` with unit
"bytes" derive a rate of 8000 (bits per second). -/
theorem C3_witness :
    (calculate_rate prevM "m" 2000 2 "bytes").1 =
      some (if "bytes" = "bytes" then ((2000 : ℚ) - 1000) / (2 - 1) * 8
            else ((2000 : ℚ) - 1000) / (2 - 1)) ∧
    ∀ (env : AlertEnv) (ctx : AlertCtx) (sendOk : Bool) (res : ProcessResult),
      process_metric env "counter" "bytes" "m" prevM ctx 2000 2 sendOk =
        some res →
      res.write = some ⟨((2000 : ℚ) - 1000) / (2 - 1) * 8, "bps"⟩ :=
  C3_counter_rate_formula "m" 1000 1 2000 2 "bytes" prevM rfl
    (by norm_num) (by norm_num)

/-- Claim C4: for a counter binding, `process_metric` returns no sample
when there is no previous sample or when the raw delta is negative
(wraparound/reset); in both cases no threshold check and no storage write
happen, and the previous-sample store is still updated to the new
`(value, timestamp)`. -/
theorem C4_no_sample_still_updates_prev (unit id : String) (value now : ℚ)
    (prevMap : PrevMap) (env : AlertEnv) (ctx : AlertCtx) (sendOk : Bool)
    (h : prevMap id = none ∨ ∃ p, prevMap id = some p ∧ value < p.value) :
    process_metric env "counter" unit id prevMap ctx value now sendOk =
      some ⟨none, updatePrev prevMap id ⟨value, now⟩, none, ctx, []⟩ := by
  have hr : calculate_rate prevMap id value now unit =
      (none, updatePrev prevMap id ⟨value, now⟩) := by
    rcases h with h | ⟨p, hp, hvp⟩
    · simp [calculate_rate, h]
    · have hneg : ¬ (0 : ℚ) ≤ value - p.value := by linarith
      unfold calculate_rate
      rw [hp]
      by_cases htd : (0 : ℚ) < now - p.timestamp
      · simp [htd, hneg]
      · simp [htd]
  unfold process_metric
  rw [if_pos rfl, hr]

/-- Claim C4 witness: after samples `(1000, 1)` a wrapped sample `(500, 2)`
yields no sample while the previous-sample store now holds `(500, 2)`. -/
theorem C4_witness :
    process_metric envGauge "counter" "bytes" "m" prevM freshCtx 500 2 true =
      some ⟨none, updatePrev prevM "m" ⟨500, 2⟩, none, freshCtx, []⟩ :=
  C4_no_sample_still_updates_prev "bytes" "m" 500 2 prevM envGauge freshCtx
    true (Or.inr ⟨⟨1000, 1⟩, rfl, by norm_num⟩)

/-- Claim C6 counterexample: with maintenance mode on, three nodes entering
DOWN (at t=100, 110, 120) produce zero notifications — but, contrary to
the claim, the DOWN-alert history does NOT record the three timestamps:
`_send_down_alert` returns at the maintenance check (line 366 of
`monitor_manager.py`) before any history bookkeeping, so the history stays
empty. -/
theorem C6_counterexample :
    (send_down_alert cfgMaint none st0 100).2 = [] ∧
    (send_down_alert cfgMaint none
        (send_down_alert cfgMaint none st0 100).1 110).2 = [] ∧
    (send_down_alert cfgMaint none (send_down_alert cfgMaint none
        (send_down_alert cfgMaint none st0 100).1 110).1 120).2 = [] ∧
    (send_down_alert cfgMaint none (send_down_alert cfgMaint none
        (send_down_alert cfgMaint none st0 100).1 110).1 120).1.alertHistory
      = [] :=
  ⟨rfl, rfl, rfl, rfl⟩

/-- Claim C6 amended: whenever the maintenance_mode config flag is true,
every DOWN notification (individual and storm aggregate) is suppressed,
and the DOWN-alert history and storm state are left entirely unchanged —
the new timestamp is NOT recorded (the maintenance check returns before
the throttling bookkeeping). -/
theorem C6_maintenance_suppresses_all (cfg : PushoverConfig)
    (np : Option ℤ) (st : ManagerAlertState) (now : ℚ)
    (hm : cfg.maintenanceMode = true) :
    send_down_alert cfg np st now = (st, []) := by
  unfold send_down_alert
  by_cases he : cfg.enabled
  · simp [he, hm]
  · simp [he]

/-- Claim C6 witness: a concrete maintenance-mode DOWN alert at t=100 sends
nothing and leaves the throttling state untouched. -/
theorem C6_witness : send_down_alert cfgMaint none st0 100 = (st0, []) :=
  C6_maintenance_suppresses_all cfgMaint none st0 100 rfl

/-- Claim C7 counterexample: a CRITICAL transition (value 95 against
crit 90) whose dispatch FAILS (`send_notification` returns False, the
`sendOk = false` argument) still updates the per-binding cooldown to the
current time 1000 — lines 295-296 of `metrics_processor.py` ignore the
returned boolean — so the claim that the cooldown is updated only on a
successful dispatch is false. -/
theorem C7_counterexample :
    (check_thresholds envGauge "m" 95 1000 false freshCtx).map
        (fun r => (r.1.cooldown "m", r.2)) =
      some (1000, [⟨false, 1⟩]) := by
  norm_num [check_thresholds, envGauge, freshCtx, candidateLevel,
    applyHysteresis]
  simp [updateCooldown]

/-- Claim C7 amended: for every metric-alert notification attempt (a level
transition past the cooldown window), the per-binding cooldown timestamp
is set to the current time regardless of whether the dispatch succeeded or
failed: exactly one attempt is made and the cooldown is `now` for either
value of the send result. -/
theorem C7_cooldown_updated_on_attempt (env : AlertEnv) (id : String)
    (v now : ℚ) (ctx : AlertCtx) (sendOk : Bool) (cur : Option AlertLevel)
    (hn : env.nodeEnabled = true) (hp : env.pushoverEnabled = true)
    (hth : ¬(env.warning = none ∧ env.critical = none))
    (hlvl : applyHysteresis env.condition env.warning env.critical
        (ctx.states id)
        (candidateLevel env.condition env.warning env.critical v) v
      = some cur)
    (hch : cur ≠ ctx.states id)
    (hcool : 60 ≤ now - ctx.cooldown id) :
    (check_thresholds env id v now sendOk ctx).map
        (fun r => (r.1.cooldown id, r.2.length)) = some (now, 1) := by
  have hcool2 : ¬ (now - ctx.cooldown id < 60) := by linarith
  unfold check_thresholds
  simp only [hn, hp, Bool.not_true, Bool.false_eq_true, if_false,
    if_neg hth]
  rw [hlvl]
  simp only [if_neg hch]
  cases cur with
  | some lvl =>
      simp [updateCooldown, hcool2]
  | none =>
      rcases hprev : ctx.states id with _ | pl
      · exact absurd hprev.symm hch
      · simp [updateCooldown, hcool2]

/-- Claim C7 witness: the amended rule at the concrete failing-dispatch
input of the counterexample. -/
theorem C7_witness :
    (check_thresholds envGauge "m" 95 1000 false freshCtx).map
        (fun r => (r.1.cooldown "m", r.2.length)) = some (1000, 1) :=
  C7_cooldown_updated_on_attempt envGauge "m" 95 1000 freshCtx false
    (some .critical) rfl rfl (by simp [envGauge]) rfl
    (by simp [freshCtx]) (by norm_num [freshCtx])

/-- Claim C10: when the computed alert level differs from the prior
persisted level but the last notification for the binding is less than
60 seconds old, the new level is still persisted to the alert-state map
while zero notification attempts are made, and the cooldown timestamp is
left unchanged — nothing is deferred or retried for that transition. -/
theorem C10_silent_persist_under_cooldown (env : AlertEnv) (id : String)
    (v now : ℚ) (ctx : AlertCtx) (sendOk : Bool) (cur : Option AlertLevel)
    (hn : env.nodeEnabled = true) (hp : env.pushoverEnabled = true)
    (hth : ¬(env.warning = none ∧ env.critical = none))
    (hlvl : applyHysteresis env.condition env.warning env.critical
        (ctx.states id)
        (candidateLevel env.condition env.warning env.critical v) v
      = some cur)
    (hch : cur ≠ ctx.states id)
    (hcool : now - ctx.cooldown id < 60) :
    check_thresholds env id v now sendOk ctx =
      some (⟨updateAlert ctx.states id cur, ctx.cooldown⟩, []) := by
  unfold check_thresholds
  simp only [hn, hp, Bool.not_true, Bool.false_eq_true, if_false,
    if_neg hth]
  rw [hlvl]
  simp only [if_neg hch]
  cases cur with
  | some lvl => simp [hcool]
  | none =>
      rcases hprev : ctx.states id with _ | pl
      · exact absurd hprev.symm hch
      · simp [hcool]

/-- Claim C10 witness: a fresh CRITICAL level computed 10 seconds after the
last notification (cooldown 990, now 1000) is persisted with no
notification attempt and an unchanged cooldown. -/
theorem C10_witness :
    check_thresholds envGauge "m" 95 1000 true ctxRecent =
      some (⟨updateAlert ctxRecent.states "m" (some .critical),
             ctxRecent.cooldown⟩, []) :=
  C10_silent_persist_under_cooldown envGauge "m" 95 1000 ctxRecent true
    (some .critical) rfl rfl (by simp [envGauge]) rfl
    (by simp [ctxRecent]) (by norm_num [ctxRecent])

/-- Claim C1 counterexample: a node whose reachability state is UP
(failure_count 0) and whose probes all SUCCEED transitions directly to
DOWN when one of its metric bindings holds a CRITICAL alert (the metric
override at lines 210-215 of `monitor_manager.py`), contradicting the
claim that DOWN is reachable only from PENDING after failure_count has
been incremented past max_retries. -/
theorem C1_counterexample :
    (process_node_tick nodeWithMetric ⟨.up, 0, 0⟩ critStates [pingOk]
        0).nodeState.status = .down ∧
    (⟨.up, 0, 0⟩ : NodeState).status ≠ .pending ∧
    (⟨.up, 0, 0⟩ : NodeState).failure_count = 0 := by
  refine ⟨rfl, ?_, rfl⟩
  decide

/-- Claim C1 amended: an enabled node's state becomes DOWN (from a
non-DOWN state) in exactly two ways: on probe failure from PENDING with
failure_count incremented past max_retries, or — regardless of the
previous state — when all probes succeed but the node's aggregated
metric-alert status is DOWN (a CRITICAL metric alert). -/
theorem C1_down_entry (node : Node) (s : NodeState) (states : AlertStates)
    (probes : List ProbeResult) (now : ℚ)
    (he : node.enabled = true) (hg : node.groupEnabled = true)
    (hnd : s.status ≠ .down)
    (hdown : (process_node_tick node s states probes now).nodeState.status
      = .down) :
    (aggregateSuccess probes = true ∧
        get_node_alert_status states node.metricIds = .down) ∨
    (aggregateSuccess probes = false ∧ s.status = .pending ∧
        node.maxRetries < s.failure_count + 1) := by
  simp only [process_node_tick, he, hg, Bool.not_true, Bool.or_self,
    Bool.false_eq_true, if_false] at hdown
  cases hsucc : aggregateSuccess probes with
  | true =>
      left
      rw [hsucc] at hdown
      unfold processTransition at hdown
      simp only [if_pos rfl, if_true] at hdown
      refine ⟨rfl, ?_⟩
      by_cases hm : get_node_alert_status states node.metricIds = .down
      · exact hm
      · exfalso
        by_cases hm2 : get_node_alert_status states node.metricIds = .pending
        · simp [hm, hm2] at hdown
        · simp [hm, hm2] at hdown
  | false =>
      right
      rw [hsucc] at hdown
      unfold processTransition at hdown
      simp only [Bool.false_eq_true, if_false] at hdown
      cases hst : s.status with
      | up => rw [hst] at hdown; simp at hdown
      | pending =>
          rw [hst] at hdown
          by_cases hmr : node.maxRetries < s.failure_count + 1
          · exact ⟨rfl, rfl, hmr⟩
          · rw [if_neg hmr] at hdown; simp at hdown
      | down => exact absurd hst hnd
      | paused => rw [hst] at hdown; simp [hst] at hdown

/-- Claim C1 witness: the amended rule at a concrete input — a PENDING node
with failure_count 3 and max_retries 3 fails one more probe and goes
DOWN through the retry-exhaustion path. -/
theorem C1_witness :
    (aggregateSuccess [pingFail] = true ∧
        get_node_alert_status noStates nodePlain.metricIds = .down) ∨
    (aggregateSuccess [pingFail] = false ∧
        (⟨.pending, 3, 0⟩ : NodeState).status = .pending ∧
        nodePlain.maxRetries < (⟨.pending, 3, 0⟩ : NodeState).failure_count + 1) :=
  C1_down_entry nodePlain ⟨.pending, 3, 0⟩ noStates [pingFail] 0 rfl rfl
    (by decide) rfl

/-- Claim C2 counterexample: a disabled node currently DOWN with a
CRITICAL alert persisted for its binding "m1": the disabled-branch tick
(lines 137-163 of `monitor_manager.py`) leaves its internal reachability
state DOWN (not PAUSED) and leaves the persisted CRITICAL AlertState entry
in place (nothing in that branch touches `node_states` or the alert-state
file), contradicting the claim. -/
theorem C2_counterexample :
    (process_node_tick nodeDisabled ⟨.down, 4, 0⟩ critStates [] 0).nodeState
      = ⟨.down, 4, 0⟩ ∧
    (process_node_tick nodeDisabled ⟨.down, 4, 0⟩ critStates []
        0).alertStates "m1" = some .critical :=
  ⟨rfl, rfl⟩

/-- Claim C2 amended: for every disabled node (node or group flag off), the
processed tick executes no probes, reports PAUSED in the latest-results
snapshot, and writes one PAUSED reachability record (protocol "icmp") —
but it leaves the internal reachability state and the persisted AlertState
entries of the node's bindings unchanged (clearing them would require a
`_check_thresholds` call, which the disabled tick never makes). -/
theorem C2_disabled_tick (node : Node) (s : NodeState)
    (states : AlertStates) (probes : List ProbeResult) (now : ℚ)
    (h : node.enabled = false ∨ node.groupEnabled = false) :
    process_node_tick node s states probes now =
      { probesRun := 0
        lastResultStatus := some .paused
        storageStatuses := [("icmp", .paused)]
        nodeState := s
        alertStates := states
        downAlertTriggered := false } := by
  rcases h with h | h <;> simp [process_node_tick, h]

/-- Claim C2 witness: the amended rule at the counterexample's input. -/
theorem C2_witness :
    process_node_tick nodeDisabled ⟨.down, 4, 0⟩ critStates [] 0 =
      { probesRun := 0
        lastResultStatus := some .paused
        storageStatuses := [("icmp", .paused)]
        nodeState := ⟨.down, 4, 0⟩
        alertStates := critStates
        downAlertTriggered := false } :=
  C2_disabled_tick nodeDisabled ⟨.down, 4, 0⟩ critStates [] 0 (Or.inl rfl)

/-- Claim C8 counterexample: an enabled node in UP with NO enabled probes:
the tick is not a no-op — `overall_success` is False for an empty result
list (line 190 of `monitor_manager.py`), so the node enters PENDING
instead of retaining UP. -/
theorem C8_counterexample :
    (process_node_tick nodePlain ⟨.up, 0, 0⟩ noStates [] 0).nodeState.status
      = .pending ∧
    Status.pending ≠ Status.up := by
  refine ⟨rfl, ?_⟩
  decide

/-- Claim C8 amended: for an enabled node, the aggregated probe success is
true exactly when the list of enabled probes is nonempty AND every probe
succeeded; when no probes are enabled the tick is processed as a probe
failure — in particular a node that was UP enters PENDING. -/
theorem C8_aggregate_success (node : Node) (s : NodeState)
    (states : AlertStates) (probes : List ProbeResult) (now : ℚ)
    (he : node.enabled = true) (hg : node.groupEnabled = true)
    (hup : s.status = .up) :
    (aggregateSuccess probes = true ↔
      probes ≠ [] ∧ ∀ r ∈ probes, r.success = true) ∧
    (process_node_tick node s states [] now).nodeState.status = .pending := by
  constructor
  · cases probes with
    | nil => simp [aggregateSuccess]
    | cons a l => simp [aggregateSuccess, List.all_eq_true]
  · simp only [process_node_tick, he, hg, Bool.not_true, Bool.or_self,
      Bool.false_eq_true, if_false]
    unfold processTransition
    simp only [aggregateSuccess, List.isEmpty_nil, Bool.false_eq_true,
      if_true, if_false]
    rw [hup]

/-- Claim C8 witness: the amended rule at a concrete input (one successful
probe for the aggregation; the no-probe tick from UP). -/
theorem C8_witness :
    (aggregateSuccess [pingOk] = true ↔
      [pingOk] ≠ [] ∧ ∀ r ∈ [pingOk], r.success = true) ∧
    (process_node_tick nodePlain ⟨.up, 0, 0⟩ noStates [] 0).nodeState.status
      = .pending :=
  C8_aggregate_success nodePlain ⟨.up, 0, 0⟩ noStates [pingOk] 0 rfl rfl rfl


/-- Helper: whatever branch `check_thresholds` takes (early return on an
unchanged level, silent persist under cooldown, or a notification
attempt), the alert level it leaves persisted for the binding is exactly
the hysteresis-adjusted level. -/
theorem check_states_point (env : AlertEnv) (id : String) (v now : ℚ)
    (sendOk : Bool) (ctx : AlertCtx) (cur : Option AlertLevel)
    (hn : env.nodeEnabled = true) (hp : env.pushoverEnabled = true)
    (hth : ¬(env.warning = none ∧ env.critical = none))
    (hlvl : applyHysteresis env.condition env.warning env.critical
        (ctx.states id)
        (candidateLevel env.condition env.warning env.critical v) v
      = some cur) :
    (check_thresholds env id v now sendOk ctx).map (fun r => r.1.states id)
      = some cur := by
  unfold check_thresholds
  simp only [hn, hp, Bool.not_true, Bool.false_eq_true, if_false,
    if_neg hth]
  rw [hlvl]
  by_cases hsame : cur = ctx.states id
  · simp [hsame]
  · simp only [if_neg hsame]
    cases cur with
    | some lvl =>
        by_cases hcd : now - ctx.cooldown id < 60 <;> simp [hcd, updateAlert]
    | none =>
        cases hprev : ctx.states id with
        | none => simp [updateAlert]
        | some pl =>
            by_cases hcd : now - ctx.cooldown id < 60 <;>
              simp [hcd, updateAlert]

/-- A binding environment with only a critical threshold of 100,
comparator "gt". -/
def envCrit100 : AlertEnv := ⟨true, true, none, some 100, "gt", none⟩

/-- Claim C5 counterexample: prior level CRITICAL, comparator "gt",
critical threshold 100, next value v = 95 = 0.95 x 100.  The claim says
any v >= 0.95 x crit is held at CRITICAL; the code's hold condition is
strict (`value > critical * (1.0 - 0.05)`, line 246 of
`metrics_processor.py`), so at v = 95 the level is downgraded (the
persisted level for "m" becomes none). -/
theorem C5_counterexample :
    (check_thresholds envCrit100 "m" 95 1000 true ctxCrit).map
        (fun r => r.1.states "m") = some none ∧
    (100 : ℚ) * (1 - (5 : ℚ)/100) ≤ 95 := by
  constructor
  · norm_num [check_thresholds, envCrit100, ctxCrit, candidateLevel,
      applyHysteresis]
    simp [updateAlert]
  · norm_num

/-- Claim C5 amended: with a positive threshold and prior level CRITICAL,
the level stays CRITICAL if and only if v is STRICTLY above
crit x (1 - 0.05) for comparator "gt" (strictly below crit x (1 + 0.05)
for "lt"); at v exactly equal to the 5% boundary the level is downgraded.
The same strict rule governs the WARNING -> none downgrade against the
warning threshold. -/
theorem C5_hysteresis_boundary (cond : String) (c w v now : ℚ)
    (id : String) (sendOk : Bool) (ctxC ctxW : AlertCtx)
    (hcond : cond = "gt" ∨ cond = "lt") (hc : 0 < c) (hw : 0 < w)
    (hC : ctxC.states id = some .critical)
    (hW : ctxW.states id = some .warning) :
    ((check_thresholds ⟨true, true, none, some c, cond, none⟩ id v now
        sendOk ctxC).map (fun r => r.1.states id) = some (some .critical) ↔
      (if cond = "gt" then c * (1 - (5 : ℚ)/100) < v
       else v < c * (1 + (5 : ℚ)/100))) ∧
    ((check_thresholds ⟨true, true, some w, none, cond, none⟩ id v now
        sendOk ctxW).map (fun r => r.1.states id) = some (some .warning) ↔
      (if cond = "gt" then w * (1 - (5 : ℚ)/100) < v
       else v < w * (1 + (5 : ℚ)/100))) := by
  rcases hcond with hcg | hcl
  · subst hcg
    constructor
    · have hcand : candidateLevel "gt" none (some c) v =
          (if c ≤ v then some .critical else none) := by
        by_cases h : c ≤ v <;> simp [candidateLevel, h]
      have hA : applyHysteresis "gt" none (some c) (ctxC.states id)
          (candidateLevel "gt" none (some c) v) v =
          some (if c * (1 - (5 : ℚ)/100) < v then some .critical
                else none) := by
        rw [hC, hcand]
        by_cases h1 : c ≤ v
        · have h2 : c * (1 - (5 : ℚ)/100) < v := by nlinarith
          simp [h1, h2, applyHysteresis]
        · by_cases h2 : c * (1 - (5 : ℚ)/100) < v <;>
            simp [h1, h2, applyHysteresis]
      rw [check_states_point _ id v now sendOk ctxC _ rfl rfl
        (by simp) hA]
      by_cases h2 : c * (1 - (5 : ℚ)/100) < v <;> simp [h2]
    · have hcand : candidateLevel "gt" (some w) none v =
          (if w ≤ v then some .warning else none) := by
        by_cases h : w ≤ v <;> simp [candidateLevel, h]
      have hA : applyHysteresis "gt" (some w) none (ctxW.states id)
          (candidateLevel "gt" (some w) none v) v =
          some (if w * (1 - (5 : ℚ)/100) < v then some .warning
                else none) := by
        rw [hW, hcand]
        by_cases h1 : w ≤ v
        · have h2 : w * (1 - (5 : ℚ)/100) < v := by nlinarith
          simp [h1, h2, applyHysteresis]
        · by_cases h2 : w * (1 - (5 : ℚ)/100) < v <;>
            simp [h1, h2, applyHysteresis]
      rw [check_states_point _ id v now sendOk ctxW _ rfl rfl
        (by simp) hA]
      by_cases h2 : w * (1 - (5 : ℚ)/100) < v <;> simp [h2]
  · subst hcl
    constructor
    · have hcand : candidateLevel "lt" none (some c) v =
          (if v ≤ c then some .critical else none) := by
        by_cases h : v ≤ c <;> simp [candidateLevel, h]
      have hA : applyHysteresis "lt" none (some c) (ctxC.states id)
          (candidateLevel "lt" none (some c) v) v =
          some (if v < c * (1 + (5 : ℚ)/100) then some .critical
                else none) := by
        rw [hC, hcand]
        by_cases h1 : v ≤ c
        · have h2 : v < c * (1 + (5 : ℚ)/100) := by nlinarith
          simp [h1, h2, applyHysteresis]
        · by_cases h2 : v < c * (1 + (5 : ℚ)/100) <;>
            simp [h1, h2, applyHysteresis]
      rw [check_states_point _ id v now sendOk ctxC _ rfl rfl
        (by simp) hA]
      by_cases h2 : v < c * (1 + (5 : ℚ)/100) <;> simp [h2]
    · have hcand : candidateLevel "lt" (some w) none v =
          (if v ≤ w then some .warning else none) := by
        by_cases h : v ≤ w <;> simp [candidateLevel, h]
      have hA : applyHysteresis "lt" (some w) none (ctxW.states id)
          (candidateLevel "lt" (some w) none v) v =
          some (if v < w * (1 + (5 : ℚ)/100) then some .warning
                else none) := by
        rw [hW, hcand]
        by_cases h1 : v ≤ w
        · have h2 : v < w * (1 + (5 : ℚ)/100) := by nlinarith
          simp [h1, h2, applyHysteresis]
        · by_cases h2 : v < w * (1 + (5 : ℚ)/100) <;>
            simp [h1, h2, applyHysteresis]
      rw [check_states_point _ id v now sendOk ctxW _ rfl rfl
        (by simp) hA]
      by_cases h2 : v < w * (1 + (5 : ℚ)/100) <;> simp [h2]

/-- Claim C5 witness: the amended boundary rule at crit 90, warn 80,
comparator "gt", value 85.6 (just above 0.95 x 90 = 85.5, just above
0.95 x 80 = 76): CRITICAL is held and WARNING is held. -/
theorem C5_witness :
    ((check_thresholds ⟨true, true, none, some 90, "gt", none⟩ "m"
        (856/10) 1000 true ctxCrit).map (fun r => r.1.states "m") =
      some (some .critical) ↔
      (if "gt" = "gt" then (90 : ℚ) * (1 - (5 : ℚ)/100) < 856/10
       else (856/10 : ℚ) < 90 * (1 + (5 : ℚ)/100))) ∧
    ((check_thresholds ⟨true, true, some 80, none, "gt", none⟩ "m"
        (856/10) 1000 true ctxWarn).map (fun r => r.1.states "m") =
      some (some .warning) ↔
      (if "gt" = "gt" then (80 : ℚ) * (1 - (5 : ℚ)/100) < 856/10
       else (856/10 : ℚ) < 80 * (1 + (5 : ℚ)/100))) :=
  C5_hysteresis_boundary "gt" 90 80 (856/10) 1000 "m" true ctxCrit ctxWarn
    (Or.inl rfl) (by norm_num) (by norm_num) rfl rfl

end BeamState
